import Mathlib

/-!
Verification of the conversation_analysis_openAI repository.

The heart of the development is a shallow embedding of the vendored
Deepgram live-transcription websocket client
(`deepgram/clients/live/v1/client.py`, class `LiveClient`) and of the
Flask upload orchestration (`app/app.py`).

Modelling conventions:
* Python object state that the claims read is carried in an explicit
  `ClientState` record; each method is a Lean function from state (plus
  the outcomes the underlying socket produces, supplied as parameters)
  to a result.
* Every effectful method returns a `Res α`: the ordered list of
  observable actions it performed (events emitted to handlers, frames
  written to the socket, the exit flag being set, the socket handle
  being discarded) together with either a normal Python return value or
  a raised exception.
* Python `None` is `Option.none`; an attribute that does not exist yet
  on the object is the outer `none` of a nested `Option`.
* Logging calls and `time.sleep` are not observable and are omitted.
-/

namespace LiveV1

/-- The exceptions the modelled code can raise.  `attributeError` is
Python's `AttributeError` (attribute access on `None` or on a missing
attribute); `deepgramError` is the SDK's `DeepgramError`
(configuration failure); `deepgramWebsocketError` is
`DeepgramWebsocketError` (duplicate start); the remaining three are the
websocket transport exceptions re-raised by the fail-closed toggles. -/
inductive PyErr where
  | attributeError
  | deepgramError
  | deepgramWebsocketError
  | connectionClosedOK
  | connectionClosed
  | wsException
  | otherException
  deriving Repr, DecidableEq, Fintype

/-- The event kinds of `LiveTranscriptionEvents`.  The enum module is
not under src/; the kinds are the variants listed in the spec's data
model (Open, Transcript, Metadata, SpeechStarted, UtteranceEnd, Error,
Close). -/
inductive EventKind where
  | Open
  | Transcript
  | Metadata
  | SpeechStarted
  | UtteranceEnd
  | Error
  | Close
  deriving Repr, DecidableEq, Fintype

/-- Modelled from the spec: the wire discriminant (`.value`) of each
`LiveTranscriptionEvents` member.  `enums.py` is not under src/; the
spec says each inbound frame carries a `type` discriminant matching one
of the event kinds, so each kind's tag is its own name.  The claims
depend only on which strings are known tags, never on their exact
spelling. -/
def EventKind.value : EventKind → String
  | .Open => "Open"
  | .Transcript => "Transcript"
  | .Metadata => "Metadata"
  | .SpeechStarted => "SpeechStarted"
  | .UtteranceEnd => "UtteranceEnd"
  | .Error => "Error"
  | .Close => "Close"

/-- One observable action of the client, in program order:
an event dispatched to the handlers registered for its kind
(`self._emit`), a write attempted on the socket (`self._socket.send`),
the exit event being set (`self._exit_event.set()`), or a live socket
handle being discarded (`self._socket = None` while the handle was
present). -/
inductive Action where
  | emitEv (k : EventKind)
  | sendFrame (data : String)
  | setExitFlag
  | discardSocket
  deriving Repr, DecidableEq

/-- Equality of exception-or-value results is decidable; needed so
that statements about the finite client state space can be settled by
evaluation. -/
instance {ε α : Type} [DecidableEq ε] [DecidableEq α] :
    DecidableEq (Except ε α) := fun x y =>
  match x, y with
  | .error a, .error b =>
    if h : a = b then .isTrue (h ▸ rfl)
    else .isFalse (fun hh => h (Except.error.inj hh))
  | .error _, .ok _ => .isFalse (fun hh => Except.noConfusion hh)
  | .ok _, .error _ => .isFalse (fun hh => Except.noConfusion hh)
  | .ok a, .ok b =>
    if h : a = b then .isTrue (h ▸ rfl)
    else .isFalse (fun hh => h (Except.ok.inj hh))

/-- Result of running one modelled method: the ordered actions it
performed, and either a normal return value or a raised exception. -/
structure Res (α : Type) where
  acts : List Action
  out : Except PyErr α
  deriving Repr, DecidableEq

/-- The configuration toggles of `DeepgramClientOptions.options` that
`client.py` reads.  In Python each is the test
`config.options.get(name) == "true"`; the Bool here is that test's
result. -/
structure Config where
  keepalive : Bool
  terminationExceptionConnect : Bool
  terminationException : Bool
  terminationExceptionSend : Bool
  deriving Repr, DecidableEq, Fintype

/-- The mutable `LiveClient` attributes the claims read.
`socket` is `self._socket is not None`.
`exitEvent` is `none` when `self._exit_event` is `None` (the state
after `__init__`), and `some b` when the event exists with
`is_set() = b`.
`kaThread` / `listenThread`: outer `none` means the attribute does not
exist yet (it is first assigned inside `start`), `some none` means it
holds `None`, `some (some ())` a live thread object. -/
structure ClientState where
  socket : Bool
  exitEvent : Option Bool
  kaThread : Option (Option Unit)
  listenThread : Option (Option Unit)
  deriving Repr, DecidableEq, Fintype

/-- The state right after `LiveClient.__init__`: `self._socket = None`,
`self._exit_event = None`, and the two thread attributes not yet
assigned. -/
def initState : ClientState :=
  { socket := false, exitEvent := none, kaThread := none, listenThread := none }

/-- Outcome of one `self._socket.send(data)` call, supplied by the
transport: success, or one of the three exception classes the `send`
method catches. -/
inductive SendOutcome where
  | ok
  | closedOK
  | wsExc
  | otherExc
  deriving Repr, DecidableEq, Fintype

/-- `LiveClient.send` (client.py lines 392-432).
Checks `self._exit_event.is_set()` (raising `AttributeError` when the
event is still `None`), returns `False` when exit is signaled; when a
socket exists, takes the send lock and attempts the write, mapping each
caught transport exception per the `termination_exception_send`
toggle; returns `False` when no socket exists. -/
def send (cfg : Config) (st : ClientState) (data : String) (oc : SendOutcome) :
    Res Bool :=
  match st.exitEvent with
  | none => { acts := [], out := .error .attributeError }
  | some ex =>
    if ex then
      -- "send exiting gracefully"
      { acts := [], out := .ok false }
    else if st.socket then
      match oc with
      | .ok => { acts := [.sendFrame data], out := .ok true }
      | .closedOK =>
        if cfg.terminationExceptionSend then
          { acts := [.sendFrame data], out := .error .connectionClosedOK }
        else
          -- ConnectionClosedOK is treated as graceful: `return True`
          { acts := [.sendFrame data], out := .ok true }
      | .wsExc =>
        if cfg.terminationExceptionSend then
          { acts := [.sendFrame data], out := .error .wsException }
        else
          { acts := [.sendFrame data], out := .ok false }
      | .otherExc =>
        if cfg.terminationExceptionSend then
          { acts := [.sendFrame data], out := .error .otherException }
        else
          { acts := [.sendFrame data], out := .ok false }
    else
      -- "send() failed. socket is None"
      { acts := [], out := .ok false }

/-- The serialized `json.dumps({"type": "CloseStream"})` control frame. -/
def closeStreamFrame : String := "\x7b\"type\": \"CloseStream\"\x7d"

/-- The serialized `json.dumps({"type": "KeepAlive"})` control frame. -/
def keepAliveFrame : String := "\x7b\"type\": \"KeepAlive\"\x7d"

/-- Outcome of the `self._socket.close()` call inside `_signal_exit`:
success, or a `WebSocketException` (which the method catches, leaving
the handle in place). -/
inductive CloseOutcome where
  | ok
  | wsExc
  deriving Repr, DecidableEq, Fintype

/-- `LiveClient._signal_exit` (client.py lines 463-489).
When a socket exists: sends the CloseStream control frame through
`self.send` (whose raised exceptions propagate), then emits a
synthesized `Close` event.  Then sets the exit event (raising
`AttributeError` when `self._exit_event` is `None`).  Finally, when a
socket exists, closes it and discards the handle; a
`WebSocketException` from `close()` is caught, leaving the handle in
place. -/
def signalExit (cfg : Config) (st : ClientState) (oc : SendOutcome)
    (cc : CloseOutcome) : Res ClientState :=
  let step1 : Res Unit :=
    if st.socket then
      let r := send cfg st closeStreamFrame oc
      match r.out with
      | .error e => { acts := r.acts, out := .error e }
      | .ok _ =>
        -- time.sleep(0.5), then push close event
        { acts := r.acts ++ [.emitEv .Close], out := .ok () }
    else
      { acts := [], out := .ok () }
  match step1.out with
  | .error e => { acts := step1.acts, out := .error e }
  | .ok _ =>
    match st.exitEvent with
    | none => { acts := step1.acts, out := .error .attributeError }
    | some _ =>
      let st1 := { st with exitEvent := some true }
      let acts1 := step1.acts ++ [.setExitFlag]
      if st1.socket then
        match cc with
        | .ok =>
          { acts := acts1 ++ [.discardSocket],
            out := .ok { st1 with socket := false } }
        | .wsExc =>
          -- "socket.wait_closed failed": caught, handle kept
          { acts := acts1, out := .ok st1 }
      else
        { acts := acts1, out := .ok st1 }

/-- `LiveClient.finish` (client.py lines 435-460).
Calls `_signal_exit`, joins and clears the keepalive thread when the
attribute is not `None` (raising `AttributeError` when the attribute
does not exist, i.e. `start` never ran), likewise the listening
thread, then assigns `self._socket = None` and returns `True`.  The Python
method returns only the bool; the post-call attribute state is paired
with it here so that a second consecutive call can be reasoned about. -/
def finish (cfg : Config) (st : ClientState) (oc : SendOutcome)
    (cc : CloseOutcome) : Res (Bool × ClientState) :=
  let r := signalExit cfg st oc cc
  match r.out with
  | .error e => { acts := r.acts, out := .error e }
  | .ok st1 =>
    match st1.kaThread with
    | none => { acts := r.acts, out := .error .attributeError }
    | some _ =>
      let st2 := { st1 with kaThread := some none }
      match st2.listenThread with
      | none => { acts := r.acts, out := .error .attributeError }
      | some _ =>
        let st3 := { st2 with listenThread := some none }
        -- self._socket = None: discards a live handle only when one
        -- is still present (it is, exactly when close() failed above)
        if st3.socket then
          { acts := r.acts ++ [.discardSocket],
            out := .ok (true, { st3 with socket := false }) }
        else
          { acts := r.acts, out := .ok (true, st3) }

/-- A well-formed inbound JSON object frame, reduced to the one field
the dispatch reads: `data.get("type")` (`none` when the key is
absent). -/
structure InboundMsg where
  type : Option String
  deriving Repr, DecidableEq

/-- Outcome of one `self._socket.recv()` call in the receive loop:
a well-formed JSON object frame, an empty (`None`) message, a
non-JSON payload (`json.loads` raises, landing in the generic
`except Exception` branch), a clean remote close
(`ConnectionClosedOK`), another `WebSocketException`, or any other
exception. -/
inductive RecvOutcome where
  | msg (m : InboundMsg)
  | emptyMsg
  | badJson
  | closedOK
  | wsExc
  | otherExc
  deriving Repr, DecidableEq

/-- Whether one iteration of the receive loop continues or the method
returns. -/
inductive LoopRes where
  | next (st : ClientState)
  | stop (st : ClientState)
  deriving Repr, DecidableEq

/-- One iteration of the `while True` body of `LiveClient._listening`
(client.py lines 173-315).
Exit-flag set or missing socket: return.  Otherwise receive one
message: an empty message continues; a well-formed frame is dispatched
on its `type` discriminant, each known tag emitting its event kind and
an unknown tag emitting one synthesized `Error` event, then the loop
continues.  `ConnectionClosedOK` returns without any event.  Any other
`WebSocketException` or exception (including a `json.loads` failure)
emits an `Error` event, runs `_signal_exit`, and then either re-raises
(when `termination_exception` is set) or returns. -/
def listenStep (cfg : Config) (st : ClientState) (oc : RecvOutcome)
    (sendOc : SendOutcome) (cc : CloseOutcome) : Res LoopRes :=
  match st.exitEvent with
  | none =>
    -- unreachable once started: `self._exit_event.is_set()` on `None`
    -- raises AttributeError, the generic except emits one Error event,
    -- and `_signal_exit` re-raises AttributeError from `set()`
    { acts := [.emitEv .Error], out := .error .attributeError }
  | some ex =>
  if ex then
    -- "_listening exiting gracefully"
    { acts := [], out := .ok (.stop st) }
  else if !st.socket then
    -- "socket is empty"
    { acts := [], out := .ok (.stop st) }
  else
    match oc with
    | .emptyMsg => { acts := [], out := .ok (.next st) }
    | .msg m =>
      match m.type with
      | some t =>
        if t = EventKind.Open.value then
          { acts := [.emitEv .Open], out := .ok (.next st) }
        else if t = EventKind.Transcript.value then
          { acts := [.emitEv .Transcript], out := .ok (.next st) }
        else if t = EventKind.Metadata.value then
          { acts := [.emitEv .Metadata], out := .ok (.next st) }
        else if t = EventKind.SpeechStarted.value then
          { acts := [.emitEv .SpeechStarted], out := .ok (.next st) }
        else if t = EventKind.UtteranceEnd.value then
          { acts := [.emitEv .UtteranceEnd], out := .ok (.next st) }
        else if t = EventKind.Error.value then
          { acts := [.emitEv .Error], out := .ok (.next st) }
        else if t = EventKind.Close.value then
          { acts := [.emitEv .Close], out := .ok (.next st) }
        else
          -- "Unknown Message": synthesize one ErrorResponse and emit it
          { acts := [.emitEv .Error], out := .ok (.next st) }
      | none =>
        -- data.get("type") is None: also the match's `case _` branch
        { acts := [.emitEv .Error], out := .ok (.next st) }
    | .closedOK =>
      -- "_listening(...) exiting gracefully"
      { acts := [], out := .ok (.stop st) }
    | .badJson | .wsExc | .otherExc =>
      let r := signalExit cfg st sendOc cc
      let acts := .emitEv .Error :: r.acts
      match r.out with
      | .error e => { acts := acts, out := .error e }
      | .ok st1 =>
        if cfg.terminationException then
          { acts := acts, out := .error (if oc = .wsExc then .wsException
                                         else .otherException) }
        else
          { acts := acts, out := .ok (.stop st1) }

/-- One iteration of the `while True` body of `LiveClient._keep_alive`
(client.py lines 318-389), given the counter value from the previous
iterations.  Increments the counter, waits one second on the exit
event, returns when exit is signaled or the socket is gone, and on
every `DEEPGRAM_INTERVAL`-th (5th) iteration sends the KeepAlive
control frame through `self.send`.  An exception raised by that call
lands in the `except` blocks: emit an `Error` event, run
`_signal_exit`, then re-raise when `termination_exception` is set,
else return.  On a normal iteration the new counter is carried in
`LoopRes.next`'s paired value. -/
def keepAliveTick (cfg : Config) (st : ClientState) (counter : Nat)
    (oc : SendOutcome) (cc : CloseOutcome) : Res (LoopRes × Nat) :=
  let c := counter + 1
  match st.exitEvent with
  | none =>
    -- unreachable once started: `self._exit_event.wait(...)` on `None`
    -- raises AttributeError, the generic except emits one Error event,
    -- and `_signal_exit` re-raises AttributeError from `set()`
    { acts := [.emitEv .Error], out := .error .attributeError }
  | some ex =>
  if ex then
    -- "_keep_alive exiting gracefully"
    { acts := [], out := .ok (.stop st, c) }
  else if !st.socket then
    -- "socket is None, exiting keep_alive"
    { acts := [], out := .ok (.stop st, c) }
  else if c % 5 = 0 then
    let r := send cfg st keepAliveFrame oc
    match r.out with
    | .ok _ => { acts := r.acts, out := .ok (.next st, c) }
    | .error e =>
      let r2 := signalExit cfg st oc cc
      let acts := r.acts ++ .emitEv .Error :: r2.acts
      match r2.out with
      | .error e2 => { acts := acts, out := .error e2 }
      | .ok st1 =>
        if cfg.terminationException then
          { acts := acts, out := .error e }
        else
          { acts := acts, out := .ok (.stop st1, c) }
  else
    { acts := [], out := .ok (.next st, c) }

/-- Runs `n` iterations of the keepalive loop from the given counter,
collecting every action, stopping early when an iteration returns or
raises (the state is threaded through `LoopRes.next`; socket sends
succeed, as during a quiet open session). -/
def keepAliveRun (cfg : Config) (st : ClientState) (counter : Nat) :
    Nat → List Action
  | 0 => []
  | n + 1 =>
    let r := keepAliveTick cfg st counter .ok .ok
    match r.out with
    | .ok (.next st1, c) => r.acts ++ keepAliveRun cfg st1 c n
    | _ => r.acts

/-- A Python `dict` with string keys, as an association list whose
keys are unique (leftmost binding wins on lookup; `dictSet` keeps
keys unique). -/
abbrev Dict := List (String × String)

/-- `d[k] = v` on a Python dict: replaces the value of an existing key
in place, else appends the new binding (insertion order preserved). -/
def dictSet : Dict → String → String → Dict
  | [], k, v => [(k, v)]
  | (k', v') :: rest, k, v =>
    if k' = k then (k, v) :: rest else (k', v') :: dictSet rest k v

/-- `d.get(k)` on a Python dict: the value of the first (and, keys
being unique, only) binding of `k`. -/
def dictGet : Dict → String → Option String
  | [], _ => none
  | (k', v') :: rest, k => if k' = k then some v' else dictGet rest k

/-- `d.update(addons)` on a Python dict: every binding of `addons` is
written into `d`, overwriting existing keys. -/
def dictUpdate (d : Dict) (addons : Dict) : Dict :=
  addons.foldl (fun acc kv => dictSet acc kv.1 kv.2) d

/-- The contents of the caller's options dict after the merge step of
`start`: `combined_options.update(addons)` when addons were given. -/
def mergedOptions (d : Dict) (a : Option Dict) : Dict :=
  match a with
  | some ad => dictUpdate d ad
  | none => d

/-- Modelled from the spec: `LiveOptions` (`options.py` is not under
src/).  The spec says `start` validates options and fails when
required fields are malformed; `client.py` calls exactly two of its
methods, `check()` (validation verdict) and `to_dict()` (its bindings
as a plain dict), so the model carries both results. -/
structure LiveOptions where
  checkOk : Bool
  toDict : Dict
  deriving Repr, DecidableEq

/-- The `options` argument of `LiveClient.start`: `None`, a
`LiveOptions` value, or a plain dict. -/
inductive StartOpts where
  | noneOpt
  | live (o : LiveOptions)
  | dict (d : Dict)
  deriving Repr, DecidableEq

/-- Outcome of the `connect(...)` call inside `start`: success or one
of the three exception classes `start` catches. -/
inductive ConnectOutcome where
  | ok
  | connClosed
  | wsExc
  | otherExc
  deriving Repr, DecidableEq

/-- `LiveClient.start` (client.py lines 59-156).
Raises `DeepgramError` when `options` is a `LiveOptions` whose
`check()` fails; raises `DeepgramWebsocketError` when a socket already
exists.  A `LiveOptions` is converted to a fresh dict; a plain dict is
aliased (`self.options = options; combined_options = self.options`),
so `combined_options.update(addons)` mutates the caller's dict in
place.  With `options=None` the merge or the later
`append_query_params` dereferences `None` and raises
`AttributeError`.  Then `connect`: on success the socket, exit event
and both loop threads are installed (the keepalive thread only when
the `keepalive` option is `"true"`), an `Open` event is emitted, and
`True` is returned; on a connect exception, re-raise when
`termination_exception_connect` is set, else return `False`.
The third component of the result is the caller's options dict's
contents when the call returns and `options` was a plain dict. -/
def start (cfg : Config) (st : ClientState) (options : StartOpts)
    (addons : Option Dict) (co : ConnectOutcome) :
    Res (Bool × ClientState × Option Dict) :=
  match options with
  | .live o =>
    if !o.checkOk then
      -- "Fatal transcription options error"
      { acts := [], out := .error .deepgramError }
    else if st.socket then
      -- "Websocket already started"
      { acts := [], out := .error .deepgramWebsocketError }
    else
      startConnect cfg st co none
  | .dict d =>
    if st.socket then
      { acts := [], out := .error .deepgramWebsocketError }
    else
      -- `combined_options = self.options` aliases the caller's dict,
      -- so the update writes through to it
      startConnect cfg st co (some (mergedOptions d addons))
  | .noneOpt =>
    if st.socket then
      { acts := [], out := .error .deepgramWebsocketError }
    else
      -- None.update(addons) / append_query_params(url, None)
      { acts := [], out := .error .attributeError }
where
  /-- The `try` block of `start`: the `connect` call and what follows
  on each of its outcomes. -/
  startConnect (cfg : Config) (st : ClientState) (co : ConnectOutcome)
      (callerDict : Option Dict) : Res (Bool × ClientState × Option Dict) :=
    match co with
    | .ok =>
      let st1 : ClientState :=
        { socket := true, exitEvent := some false,
          listenThread := some (some ()),
          kaThread := if cfg.keepalive then some (some ()) else some none }
      -- push open event
      { acts := [.emitEv .Open], out := .ok (true, st1, callerDict) }
    | .connClosed =>
      if cfg.terminationExceptionConnect then
        { acts := [], out := .error .connectionClosed }
      else
        { acts := [], out := .ok (false, st, callerDict) }
    | .wsExc =>
      if cfg.terminationExceptionConnect then
        { acts := [], out := .error .wsException }
      else
        { acts := [], out := .ok (false, st, callerDict) }
    | .otherExc =>
      if cfg.terminationExceptionConnect then
        { acts := [], out := .error .otherException }
      else
        { acts := [], out := .ok (false, st, callerDict) }

/-- Number of events of kind `k` dispatched in an action list. -/
def countEv (k : EventKind) (acts : List Action) : Nat :=
  (acts.filter (fun a => a = .emitEv k)).length

/-- `true` when no socket handle is discarded before the first `Close`
event of the action list (actions after the first `Close` are
unconstrained: the event has been emitted by then). -/
def discardAfterClose : List Action → Bool
  | [] => true
  | .discardSocket :: _ => false
  | .emitEv .Close :: _ => true
  | _ :: rest => discardAfterClose rest

/-- The state every successful `finish` leaves behind: no socket, exit
signaled, both thread attributes `None`. -/
def finishedState : ClientState :=
  { socket := false, exitEvent := some true,
    kaThread := some none, listenThread := some none }

/-- Number of socket writes of the given frame in an action list. -/
def countFrame (data : String) (acts : List Action) : Nat :=
  (acts.filter (fun a => a = .sendFrame data)).length

/-- The state a successful `start` installs: socket present, exit
event created unset, listening thread live, keepalive thread live
exactly when the keepalive option is set (else the attribute holds
`None`). -/
def startedState (cfg : Config) : ClientState :=
  { socket := true, exitEvent := some false,
    kaThread := if cfg.keepalive then some (some ()) else some none,
    listenThread := some (some ()) }

end LiveV1

namespace AppGlue

/-!
Shallow embedding of the Flask upload orchestration (`app/app.py`).
The two collaborators (`extract_text_from_audio` from
`transcribe_audio_deepgram.py` and `analyse_conversation` from
`speaker_analysis_gpt.py`) are remote-API wrappers; each is modelled
by its result.  `analyse_conversation` takes a file path and reads the
file, so it is modelled as a function of the text that the file at the
given path holds.
-/

/-- `is_audio` (app.py lines 16-19): the file is audio when its
sniffed MIME type starts with `audio/` (stated over the character
lists, which is what `str.startswith` compares).  The argument is the
MIME string that `magic` returned for the file. -/
def is_audio (mimeType : String) : Bool :=
  "audio/".toList.isPrefixOf mimeType.toList

/-- The parts of the upload request that `upload` reads: the uploaded
file's name, its text content, and the `__ajax` form flag. -/
structure UploadReq where
  filename : String
  fileText : String
  isAjax : Bool

/-- The collaborators of `upload`, each modelled by its result:
the MIME type `magic` sniffs for the saved file, the result of
`extract_text_from_audio` (`none` when it swallowed an exception and
returned `None`), and `analyse_conversation` as a function of the
content of the file whose path it is given. -/
structure Collab where
  mime : String
  transcribe : Option String
  analyse : String → Option String

/-- The HTTP response `upload` produces: `ajax_response(True, msg)`,
a redirect to `/result/<results>`, or `ajax_response(False, msg)` from
the `except` block. -/
inductive UploadResp where
  | ajaxOk (msg : Option String)
  | redirectResult (results : Option String)
  | ajaxError (msg : String)

/-- The tail of `upload`: return the analysis results as JSON when the
request was Ajax, else redirect to `upload_complete`. -/
def respond (req : UploadReq) (results : Option String) : UploadResp :=
  if req.isAjax then .ajaxOk results else .redirectResult results

/-- `upload` (app.py lines 28-83).
With an empty filename nothing runs and the final use of
`analysis_results` raises `NameError`, caught by the `except` block.
For an audio file, the transcription replaces the file content: the
original file is removed and the transcription is written to a fresh
`.txt` file whose path is then analysed (the redundant
`uploaded_file.save` inside the `with` block copies an already
exhausted stream and writes nothing).  When the transcription is falsy
(`None` or empty) no new file is written, so the later
`os.remove(file_path)` on the already-removed audio path raises
`FileNotFoundError`, caught by the `except` block.  For a non-audio
file the uploaded file itself is analysed.  On the normal paths the
analysis results are returned as JSON (Ajax) or via redirect. -/
def upload (req : UploadReq) (c : Collab) : UploadResp :=
  if req.filename = "" then
    .ajaxError "name-error: analysis_results is not defined"
  else if is_audio c.mime then
    match c.transcribe with
    | some t =>
      if t = "" then
        .ajaxError "file-not-found: os.remove on the removed audio path"
      else
        respond req (c.analyse t)
    | none =>
      .ajaxError "file-not-found: os.remove on the removed audio path"
  else
    respond req (c.analyse req.fileText)

end AppGlue

section Claims

open LiveV1 AppGlue

/-- The all-false configuration: every fail-closed toggle unset and
keepalive disabled (the SDK's defaults). -/
def defaultCfg : LiveV1.Config :=
  { keepalive := false, terminationExceptionConnect := false,
    terminationException := false, terminationExceptionSend := false }

/-- A session state right after a successful `start`: socket present,
exit event created and not set, both loop thread attributes live. -/
def openStateKA : LiveV1.ClientState :=
  { socket := true, exitEvent := some false,
    kaThread := some (some ()), listenThread := some (some ()) }

/-- C1 counterexample: calling `finish()` on a client on which
`start()` was never called (the state right after `__init__`) raises
`AttributeError` — `_signal_exit` runs `self._exit_event.set()` while
`self._exit_event` is still `None` — so `finish` is not safe to call
from every state. -/
theorem finish_before_start_raises :
    (finish defaultCfg initState .ok .ok).out = .error .attributeError := rfl

/-- Helper: from any started state with the fail-closed send toggle
unset, `finish` returns `True` and leaves the client in
`finishedState`. -/
lemma finish_ok_of_started : ∀ (cfg : LiveV1.Config)
    (st : LiveV1.ClientState) (oc : SendOutcome) (cc : CloseOutcome),
    st.exitEvent ≠ none → st.kaThread ≠ none → st.listenThread ≠ none →
    cfg.terminationExceptionSend = false →
    (finish cfg st oc cc).out = .ok (true, finishedState) := by decide

/-- Helper: from `finishedState`, `finish` only sets the (already set)
exit flag again, emits nothing, and returns `True` with the state
unchanged. -/
lemma finish_from_finished : ∀ (cfg : LiveV1.Config) (oc : SendOutcome)
    (cc : CloseOutcome),
    finish cfg finishedState oc cc
      = { acts := [.setExitFlag], out := .ok (true, finishedState) } := by
  decide

/-- C1 (amended): once `start()` has run (the exit event and both
thread attributes exist) and the fail-closed send toggle is unset,
`finish()` does not throw and always lands in `finishedState`; a
second consecutive `finish()` call also does not throw, performs no
socket action, and emits no second `Close` event.  Calling `finish()`
before any `start()`, however, raises `AttributeError`. -/
theorem finish_idempotent_after_start (cfg : LiveV1.Config)
    (st : LiveV1.ClientState) (oc oc2 : SendOutcome) (cc cc2 : CloseOutcome)
    (hev : st.exitEvent ≠ none) (hka : st.kaThread ≠ none)
    (hli : st.listenThread ≠ none)
    (hts : cfg.terminationExceptionSend = false) :
    (finish cfg st oc cc).out = .ok (true, finishedState) ∧
    (finish cfg finishedState oc2 cc2).out = .ok (true, finishedState) ∧
    (finish cfg finishedState oc2 cc2).acts = [.setExitFlag] ∧
    countEv .Close (finish cfg finishedState oc2 cc2).acts = 0 := by
  have h2 := finish_from_finished cfg oc2 cc2
  exact ⟨finish_ok_of_started cfg st oc cc hev hka hli hts,
         by rw [h2], by rw [h2], by rw [h2]; rfl⟩

/-- C1 witness: the amended theorem applied to a freshly started
session with keepalive enabled and the default configuration. -/
theorem finish_idempotent_after_start_witness :
    (finish defaultCfg openStateKA .ok .ok).out = .ok (true, finishedState) ∧
    (finish defaultCfg finishedState .ok .ok).out = .ok (true, finishedState) ∧
    (finish defaultCfg finishedState .ok .ok).acts = [.setExitFlag] ∧
    countEv .Close (finish defaultCfg finishedState .ok .ok).acts = 0 :=
  finish_idempotent_after_start defaultCfg openStateKA .ok .ok .ok .ok
    (by decide) (by decide) (by decide) rfl

/-- C2: for every payload, `send` called after the exit flag has been
signaled (in particular after `finish`) returns `false` and attempts
no write on the socket; likewise it returns `false` without touching
the socket when no socket exists (in a state where the exit event has
been created, i.e. after a `start`). -/
theorem send_after_exit_or_without_socket (cfg : LiveV1.Config)
    (st : LiveV1.ClientState) (data : String) (oc : SendOutcome)
    (h : st.exitEvent = some true ∨
         (st.exitEvent = some false ∧ st.socket = false)) :
    send cfg st data oc = { acts := [], out := .ok false } := by
  rcases h with h | ⟨h1, h2⟩
  · simp [send, h]
  · simp [send, h1, h2]

/-- C2 witness: `send` in the state a `finish` leaves behind. -/
theorem send_after_exit_or_without_socket_witness :
    send defaultCfg finishedState "audio-bytes" .ok
      = { acts := [], out := .ok false } :=
  send_after_exit_or_without_socket defaultCfg finishedState "audio-bytes" .ok
    (Or.inl rfl)

/-- C3 counterexample: a `ConnectionClosedOK` fault raised by the
socket during `send`, with the fail-closed send toggle unset, makes
`send` return `true`, not the boolean failure `false` the claim
states (client.py line 412: `return True`). -/
theorem send_closedOK_returns_true :
    (send defaultCfg openStateKA "audio-bytes" .closedOK).out = .ok true ∧
    (send defaultCfg openStateKA "audio-bytes" .closedOK).out ≠ .ok false :=
  ⟨rfl, by simp [send, openStateKA, defaultCfg]⟩

/-- C3 (amended): with the fail-closed send toggle unset, no transport
fault during `send` raises: a `WebSocketException` or any other
exception yields the failure value `false`, while the clean-close
`ConnectionClosedOK` is treated as graceful and yields `true`.  With
the toggle set, every one of these faults is re-raised. -/
theorem send_fault_policy (cfg : LiveV1.Config) (st : LiveV1.ClientState)
    (data : String)
    (hex : st.exitEvent = some false) (hso : st.socket = true) :
    (cfg.terminationExceptionSend = false →
       (send cfg st data .closedOK).out = .ok true ∧
       (send cfg st data .wsExc).out = .ok false ∧
       (send cfg st data .otherExc).out = .ok false) ∧
    (cfg.terminationExceptionSend = true →
       (send cfg st data .closedOK).out = .error .connectionClosedOK ∧
       (send cfg st data .wsExc).out = .error .wsException ∧
       (send cfg st data .otherExc).out = .error .otherException) := by
  constructor <;> intro ht <;> simp [send, hex, hso, ht]

/-- C4: a well-formed JSON frame whose `type` discriminant matches no
known event kind makes the receive loop emit exactly one synthesized
`Error` event and continue (no crash, no silent drop). -/
theorem listen_unknown_tag_emits_one_error (cfg : LiveV1.Config)
    (st : LiveV1.ClientState) (m : InboundMsg) (sendOc : SendOutcome)
    (cc : CloseOutcome)
    (hex : st.exitEvent = some false) (hso : st.socket = true)
    (hunk : ∀ k : EventKind, m.type ≠ some k.value) :
    listenStep cfg st (.msg m) sendOc cc
      = { acts := [.emitEv .Error], out := .ok (.next st) } ∧
    countEv .Error (listenStep cfg st (.msg m) sendOc cc).acts = 1 := by
  obtain ⟨mt⟩ := m
  have heq : listenStep cfg st (.msg ⟨mt⟩) sendOc cc
      = { acts := [.emitEv .Error], out := .ok (.next st) } := by
    rcases mt with _ | t
    · simp [listenStep, hex, hso]
    · have hO := hunk .Open
      have hT := hunk .Transcript
      have hM := hunk .Metadata
      have hS := hunk .SpeechStarted
      have hU := hunk .UtteranceEnd
      have hE := hunk .Error
      have hC := hunk .Close
      simp only [ne_eq, Option.some.injEq] at hO hT hM hS hU hE hC
      simp [listenStep, hex, hso, hO, hT, hM, hS, hU, hE, hC]
  exact ⟨heq, by rw [heq]; rfl⟩

/-- C4 witness: the unknown frame `type = "Bogus"` on a freshly
started session. -/
theorem listen_unknown_tag_emits_one_error_witness :
    listenStep defaultCfg openStateKA (.msg ⟨some "Bogus"⟩) .ok .ok
      = { acts := [.emitEv .Error], out := .ok (.next openStateKA) } ∧
    countEv .Error
      (listenStep defaultCfg openStateKA (.msg ⟨some "Bogus"⟩) .ok .ok).acts
      = 1 :=
  listen_unknown_tag_emits_one_error defaultCfg openStateKA ⟨some "Bogus"⟩
    .ok .ok rfl rfl (by decide)

/-- C3 witness: the amended theorem on a freshly started session. -/
theorem send_fault_policy_witness :
    (defaultCfg.terminationExceptionSend = false →
       (send defaultCfg openStateKA "pcm" .closedOK).out = .ok true ∧
       (send defaultCfg openStateKA "pcm" .wsExc).out = .ok false ∧
       (send defaultCfg openStateKA "pcm" .otherExc).out = .ok false) ∧
    (defaultCfg.terminationExceptionSend = true →
       (send defaultCfg openStateKA "pcm" .closedOK).out
         = .error .connectionClosedOK ∧
       (send defaultCfg openStateKA "pcm" .wsExc).out = .error .wsException ∧
       (send defaultCfg openStateKA "pcm" .otherExc).out
         = .error .otherException) :=
  send_fault_policy defaultCfg openStateKA "pcm" rfl rfl

/-- Helper: from an open session (socket present, exit unset, threads
live) with the fail-closed send toggle unset, `finish` emits exactly
one `Close` event. -/
lemma finish_one_close : ∀ (cfg : LiveV1.Config) (st : LiveV1.ClientState)
    (oc : SendOutcome) (cc : CloseOutcome),
    (st.exitEvent = some false ∧ st.socket = true ∧
     st.kaThread ≠ none ∧ st.listenThread ≠ none ∧
     cfg.terminationExceptionSend = false) →
    countEv .Close (finish cfg st oc cc).acts = 1 := by decide

/-- C7: on a clean remote close (`ConnectionClosedOK` from `recv`) the
receive loop returns without emitting any event — in particular no
`Error` event — and leaves the state untouched; a local `finish()`
from that state still emits exactly one `Close` event. -/
theorem clean_remote_close_then_finish (cfg : LiveV1.Config)
    (st : LiveV1.ClientState) (sendOc oc2 : SendOutcome) (cc cc2 : CloseOutcome)
    (hex : st.exitEvent = some false) (hso : st.socket = true)
    (hka : st.kaThread ≠ none) (hli : st.listenThread ≠ none)
    (hts : cfg.terminationExceptionSend = false) :
    listenStep cfg st .closedOK sendOc cc = { acts := [], out := .ok (.stop st) } ∧
    countEv .Error (listenStep cfg st .closedOK sendOc cc).acts = 0 ∧
    countEv .Close (finish cfg st oc2 cc2).acts = 1 := by
  have heq : listenStep cfg st .closedOK sendOc cc
      = { acts := [], out := .ok (.stop st) } := by
    simp [listenStep, hex, hso]
  exact ⟨heq, by rw [heq]; rfl, finish_one_close cfg st oc2 cc2 ⟨hex, hso, hka, hli, hts⟩⟩

/-- C7 witness: a freshly started session whose remote peer closed
cleanly, then a local `finish`. -/
theorem clean_remote_close_then_finish_witness :
    listenStep defaultCfg openStateKA .closedOK .ok .ok
      = { acts := [], out := .ok (.stop openStateKA) } ∧
    countEv .Error (listenStep defaultCfg openStateKA .closedOK .ok .ok).acts = 0 ∧
    countEv .Close (finish defaultCfg openStateKA .ok .ok).acts = 1 :=
  clean_remote_close_then_finish defaultCfg openStateKA .ok .ok .ok .ok
    rfl rfl (by decide) (by decide) rfl

/-- Helper: one keepalive iteration on a quiet open session (exit
unset, socket present, send succeeding) sends the KeepAlive frame
exactly when the incremented counter is a multiple of five, and always
continues. -/
lemma keepAliveTick_quiet (cfg : LiveV1.Config) (st : LiveV1.ClientState)
    (c : Nat) (cc : CloseOutcome)
    (hex : st.exitEvent = some false) (hso : st.socket = true) :
    keepAliveTick cfg st c .ok cc
      = if (c + 1) % 5 = 0 then
          { acts := [.sendFrame keepAliveFrame], out := .ok (.next st, c + 1) }
        else
          { acts := [], out := .ok (.next st, c + 1) } := by
  by_cases h : (c + 1) % 5 = 0 <;> simp [keepAliveTick, send, hex, hso, h]

/-- Helper: `countFrame` distributes over list append. -/
lemma countFrame_append (data : String) (l1 l2 : List Action) :
    countFrame data (l1 ++ l2) = countFrame data l1 + countFrame data l2 := by
  simp [countFrame]

/-- Helper: a single KeepAlive write counts once. -/
lemma countFrame_keepAlive_single :
    countFrame keepAliveFrame [.sendFrame keepAliveFrame] = 1 := by
  simp [countFrame]

/-- Helper: over `n` quiet iterations starting from counter `c`, the
number of KeepAlive frames transmitted is the number of multiples of
five in the window `(c, c+n]`. -/
lemma keepAliveRun_count (cfg : LiveV1.Config) (st : LiveV1.ClientState)
    (hex : st.exitEvent = some false) (hso : st.socket = true) :
    ∀ (n c : Nat),
      countFrame keepAliveFrame (keepAliveRun cfg st c n) = (c + n) / 5 - c / 5 := by
  intro n
  induction n with
  | zero => intro c; simp [keepAliveRun, countFrame]
  | succ n ih =>
    intro c
    have hstep := keepAliveTick_quiet cfg st c .ok hex hso
    by_cases h : (c + 1) % 5 = 0
    · rw [if_pos h] at hstep
      rw [keepAliveRun, hstep]
      show countFrame keepAliveFrame
          ([.sendFrame keepAliveFrame] ++ keepAliveRun cfg st (c + 1) n)
        = (c + (n + 1)) / 5 - c / 5
      rw [countFrame_append, countFrame_keepAlive_single, ih (c + 1)]
      omega
    · rw [if_neg h] at hstep
      rw [keepAliveRun, hstep]
      show countFrame keepAliveFrame
          ([] ++ keepAliveRun cfg st (c + 1) n)
        = (c + (n + 1)) / 5 - c / 5
      rw [List.nil_append, ih (c + 1)]
      omega

/-- C6: with the session open and quiet, the keepalive loop transmits
the `{"type": "KeepAlive"}` control frame on exactly every 5th tick of
its 1-second poll — over `n` ticks from a fresh counter, `n / 5`
frames, so exactly one after 5 seconds — and any iteration that
observes the exit flag set returns immediately without sending. -/
theorem keepalive_every_fifth_tick (cfg : LiveV1.Config)
    (stStop stRun : LiveV1.ClientState) (c n : Nat)
    (oc : SendOutcome) (cc : CloseOutcome)
    (hstop : stStop.exitEvent = some true)
    (hex : stRun.exitEvent = some false) (hso : stRun.socket = true) :
    keepAliveTick cfg stStop c oc cc = { acts := [], out := .ok (.stop stStop, c + 1) } ∧
    keepAliveTick cfg stRun c .ok cc
      = (if (c + 1) % 5 = 0 then
          { acts := [.sendFrame keepAliveFrame], out := .ok (.next stRun, c + 1) }
         else
          { acts := [], out := .ok (.next stRun, c + 1) }) ∧
    countFrame keepAliveFrame (keepAliveRun cfg stRun 0 n) = n / 5 := by
  refine ⟨by simp [keepAliveTick, hstop], keepAliveTick_quiet cfg stRun c cc hex hso, ?_⟩
  have := keepAliveRun_count cfg stRun hex hso n 0
  simpa using this

/-- C6 witness: five quiet ticks of a fresh session transmit exactly
one KeepAlive frame, and a tick that sees the exit flag sends
nothing. -/
theorem keepalive_every_fifth_tick_witness :
    keepAliveTick defaultCfg finishedState 0 .ok .ok
      = { acts := [], out := .ok (.stop finishedState, 1) } ∧
    keepAliveTick defaultCfg openStateKA 0 .ok .ok
      = (if (0 + 1) % 5 = 0 then
          { acts := [.sendFrame keepAliveFrame], out := .ok (.next openStateKA, 1) }
         else
          { acts := [], out := .ok (.next openStateKA, 1) }) ∧
    countFrame keepAliveFrame (keepAliveRun defaultCfg openStateKA 0 5) = 5 / 5 :=
  keepalive_every_fifth_tick defaultCfg finishedState openStateKA 0 5 .ok .ok
    rfl rfl rfl

/-- C5: `start(options)` raises a configuration error
(`DeepgramError`) when `options` is a `LiveOptions` whose validation
fails, raises `DeepgramWebsocketError` when a socket already exists,
on a connect fault re-raises when `termination_exception_connect` is
set and returns `False` (emitting nothing) when it is not, and on
success returns `True`, installs the connection state, and emits one
`Open` event to the registered handlers. -/
theorem start_validates_connects_and_emits_open (cfg : LiveV1.Config)
    (stBusy stIdle : LiveV1.ClientState) (oBad : LiveOptions) (d : Dict)
    (a : Option Dict) (coFault : ConnectOutcome)
    (hbad : oBad.checkOk = false) (hbusy : stBusy.socket = true)
    (hidle : stIdle.socket = false) (hfault : coFault ≠ .ok) :
    start cfg stIdle (.live oBad) a coFault
      = { acts := [], out := .error .deepgramError } ∧
    start cfg stBusy (.dict d) a coFault
      = { acts := [], out := .error .deepgramWebsocketError } ∧
    ((cfg.terminationExceptionConnect = true →
        ∃ e, (start cfg stIdle (.dict d) a coFault).out = .error e) ∧
     (cfg.terminationExceptionConnect = false →
        start cfg stIdle (.dict d) a coFault
          = { acts := [],
              out := .ok (false, stIdle, some (mergedOptions d a)) })) ∧
    start cfg stIdle (.dict d) a .ok
      = { acts := [.emitEv .Open],
          out := .ok (true, startedState cfg, some (mergedOptions d a)) } := by
  refine ⟨by simp [start, hbad], by simp [start, hbusy], ⟨?_, ?_⟩, ?_⟩
  · intro ht
    cases coFault
    · exact absurd rfl hfault
    · exact ⟨.connectionClosed, by simp [start, start.startConnect, hidle, ht]⟩
    · exact ⟨.wsException, by simp [start, start.startConnect, hidle, ht]⟩
    · exact ⟨.otherException, by simp [start, start.startConnect, hidle, ht]⟩
  · intro ht
    cases coFault
    · exact absurd rfl hfault
    all_goals simp [start, start.startConnect, hidle, ht]
  · simp [start, start.startConnect, hidle, startedState]

/-- C5 witness: the four behaviors at concrete inputs — a malformed
`LiveOptions`, an already-started state, a refused connection under
the default (fail-open) configuration, and a successful start. -/
theorem start_validates_connects_and_emits_open_witness :
    start defaultCfg initState (.live { checkOk := false, toDict := [] })
        none .wsExc
      = { acts := [], out := .error .deepgramError } ∧
    start defaultCfg openStateKA (.dict [("model", "nova")]) none .wsExc
      = { acts := [], out := .error .deepgramWebsocketError } ∧
    ((defaultCfg.terminationExceptionConnect = true →
        ∃ e, (start defaultCfg initState (.dict [("model", "nova")])
                none .wsExc).out = .error e) ∧
     (defaultCfg.terminationExceptionConnect = false →
        start defaultCfg initState (.dict [("model", "nova")]) none .wsExc
          = { acts := [],
              out := .ok (false, initState,
                          some (mergedOptions [("model", "nova")] none)) })) ∧
    start defaultCfg initState (.dict [("model", "nova")]) none .ok
      = { acts := [.emitEv .Open],
          out := .ok (true, startedState defaultCfg,
                      some (mergedOptions [("model", "nova")] none)) } :=
  start_validates_connects_and_emits_open defaultCfg openStateKA initState
    { checkOk := false, toDict := [] } [("model", "nova")] none .wsExc
    rfl rfl rfl (by decide)

/-- Helper: `discardAfterClose` ignores a leading action that neither
discards the socket nor emits `Close`. -/
lemma discardAfterClose_cons (a : Action) (l : List Action)
    (h1 : a ≠ .discardSocket) (h2 : a ≠ .emitEv .Close) :
    discardAfterClose (a :: l) = discardAfterClose l := by
  cases a with
  | emitEv k => cases k <;> first | rfl | exact absurd rfl h2
  | sendFrame s => rfl
  | setExitFlag => rfl
  | discardSocket => exact absurd rfl h1

/-- Helper: in every `_signal_exit` trace the socket handle is only
discarded after the `Close` event. -/
lemma signalExit_discardAfterClose : ∀ (cfg : LiveV1.Config)
    (st : LiveV1.ClientState) (oc : SendOutcome) (cc : CloseOutcome),
    discardAfterClose (signalExit cfg st oc cc).acts = true := by decide

/-- Helper: in every `finish` trace the socket handle is only
discarded after the `Close` event. -/
lemma finish_discardAfterClose : ∀ (cfg : LiveV1.Config)
    (st : LiveV1.ClientState) (oc : SendOutcome) (cc : CloseOutcome),
    discardAfterClose (finish cfg st oc cc).acts = true := by decide

/-- Helper: `send` either attempts exactly its one write or nothing. -/
lemma send_acts (cfg : LiveV1.Config) (st : LiveV1.ClientState)
    (data : String) (oc : SendOutcome) :
    (send cfg st data oc).acts = [] ∨
    (send cfg st data oc).acts = [.sendFrame data] := by
  cases h : st.exitEvent with
  | none => simp [send, h]
  | some ex =>
    cases ex
    · cases hso : st.socket <;> cases oc <;>
        by_cases hts : cfg.terminationExceptionSend <;> simp [send, h, hso, hts]
    · simp [send, h]

set_option maxHeartbeats 1000000 in
/-- Helper: in every receive-loop iteration the socket handle is only
discarded after the `Close` event. -/
lemma listenStep_discardAfterClose (cfg : LiveV1.Config)
    (st : LiveV1.ClientState) (roc : RecvOutcome) (sendOc : SendOutcome)
    (cc : CloseOutcome) :
    discardAfterClose (listenStep cfg st roc sendOc cc).acts = true := by
  cases h : st.exitEvent with
  | none => simp [listenStep, h, discardAfterClose]
  | some ex =>
    cases ex
    case true => simp [listenStep, h, discardAfterClose]
    case false =>
      cases hso : st.socket
      case false => simp [listenStep, h, hso, discardAfterClose]
      case true =>
        have hfault : ∀ e₀ : PyErr,
            discardAfterClose
              (Action.emitEv .Error :: (signalExit cfg st sendOc cc).acts)
              = true := by
          intro e₀
          rw [discardAfterClose_cons _ _ (by simp) (by simp)]
          exact signalExit_discardAfterClose cfg st sendOc cc
        cases roc with
        | emptyMsg => simp [listenStep, h, hso, discardAfterClose]
        | closedOK => simp [listenStep, h, hso, discardAfterClose]
        | msg m =>
          obtain ⟨mt⟩ := m
          rcases mt with _ | t
          · simp [listenStep, h, hso, discardAfterClose]
          · simp only [listenStep, h, hso]
            split_ifs <;> simp [discardAfterClose]
        | badJson =>
          rcases hro : (signalExit cfg st sendOc cc).out with e | st1 <;>
            by_cases hte : cfg.terminationException <;>
            simp [listenStep, h, hso, hro, hte, hfault .attributeError]
        | wsExc =>
          rcases hro : (signalExit cfg st sendOc cc).out with e | st1 <;>
            by_cases hte : cfg.terminationException <;>
            simp [listenStep, h, hso, hro, hte, hfault .attributeError]
        | otherExc =>
          rcases hro : (signalExit cfg st sendOc cc).out with e | st1 <;>
            by_cases hte : cfg.terminationException <;>
            simp [listenStep, h, hso, hro, hte, hfault .attributeError]

/-- Helper: in every keepalive-loop iteration the socket handle is
only discarded after the `Close` event. -/
lemma keepAliveTick_discardAfterClose (cfg : LiveV1.Config)
    (st : LiveV1.ClientState) (c : Nat) (oc : SendOutcome)
    (cc : CloseOutcome) :
    discardAfterClose (keepAliveTick cfg st c oc cc).acts = true := by
  cases h : st.exitEvent with
  | none => simp [keepAliveTick, h, discardAfterClose]
  | some ex =>
    cases ex
    case true => simp [keepAliveTick, h, discardAfterClose]
    case false =>
      cases hso : st.socket
      case false => simp [keepAliveTick, h, hso, discardAfterClose]
      case true =>
        by_cases hc : (c + 1) % 5 = 0
        · have htail :
              discardAfterClose ((send cfg st keepAliveFrame oc).acts ++
                Action.emitEv .Error :: (signalExit cfg st oc cc).acts) = true := by
            rcases send_acts cfg st keepAliveFrame oc with hsa | hsa <;> rw [hsa]
            · rw [List.nil_append,
                discardAfterClose_cons _ _ (by simp) (by simp)]
              exact signalExit_discardAfterClose cfg st oc cc
            · rw [List.cons_append, discardAfterClose_cons _ _ (by simp) (by simp),
                List.nil_append,
                discardAfterClose_cons _ _ (by simp) (by simp)]
              exact signalExit_discardAfterClose cfg st oc cc
          rcases hss : (send cfg st keepAliveFrame oc).out with e | b
          · rcases hro : (signalExit cfg st oc cc).out with e2 | st1 <;>
              by_cases hte : cfg.terminationException <;>
              simp [keepAliveTick, h, hso, hc, hss, hro, hte, htail]
          · rcases send_acts cfg st keepAliveFrame oc with hsa | hsa <;>
              simp [keepAliveTick, h, hso, hc, hss, hsa, discardAfterClose]
        · simp [keepAliveTick, h, hso, hc, discardAfterClose]

/-- C8: in every shutdown trace — `_signal_exit` itself, a local
`finish`, a receive-loop iteration (remote-initiated shutdown on a
transport fault), or a keepalive-loop iteration — the socket handle is
never set to `None` before the `Close` event has been emitted to the
`Close` handlers. -/
theorem close_emitted_before_socket_discarded (cfg : LiveV1.Config)
    (st : LiveV1.ClientState) (oc sendOc : SendOutcome) (cc : CloseOutcome)
    (roc : RecvOutcome) (c : Nat) :
    discardAfterClose (signalExit cfg st oc cc).acts = true ∧
    discardAfterClose (finish cfg st oc cc).acts = true ∧
    discardAfterClose (listenStep cfg st roc sendOc cc).acts = true ∧
    discardAfterClose (keepAliveTick cfg st c oc cc).acts = true :=
  ⟨signalExit_discardAfterClose cfg st oc cc,
   finish_discardAfterClose cfg st oc cc,
   listenStep_discardAfterClose cfg st roc sendOc cc,
   keepAliveTick_discardAfterClose cfg st c oc cc⟩

/-- C9: the upload orchestration MIME-sniffs the uploaded file; when
the MIME type is audio it analyses the transcription collaborator's
text (assuming it produced one), otherwise it analyses the file's own
text; the sentiment-insight result is returned to the caller, as JSON
for an Ajax request and via redirect otherwise. -/
theorem upload_dispatches_by_mime (req : UploadReq) (ca cn : Collab)
    (t : String)
    (hname : req.filename ≠ "")
    (haud : is_audio ca.mime = true) (htr : ca.transcribe = some t)
    (ht : t ≠ "")
    (hnon : is_audio cn.mime = false) :
    upload req ca = respond req (ca.analyse t) ∧
    upload req cn = respond req (cn.analyse req.fileText) ∧
    (∀ results : Option String,
       (req.isAjax = true → respond req results = .ajaxOk results) ∧
       (req.isAjax = false → respond req results = .redirectResult results)) := by
  refine ⟨?_, ?_, ?_⟩
  · simp [upload, hname, haud, htr, ht]
  · simp [upload, hname, hnon]
  · intro results
    exact ⟨fun ha => by simp [respond, ha], fun ha => by simp [respond, ha]⟩

/-- C9 witness: an audio upload with a successful transcription and a
plain-text upload, both via Ajax. -/
theorem upload_dispatches_by_mime_witness :
    upload { filename := "talk.wav", fileText := "raw-bytes", isAjax := true }
        { mime := "audio/wav", transcribe := some "hello there",
          analyse := fun s => some (String.append "insight: " s) }
      = respond { filename := "talk.wav", fileText := "raw-bytes", isAjax := true }
          (some (String.append "insight: " "hello there")) ∧
    upload { filename := "talk.wav", fileText := "raw-bytes", isAjax := true }
        { mime := "text/plain", transcribe := none,
          analyse := fun s => some (String.append "insight: " s) }
      = respond { filename := "talk.wav", fileText := "raw-bytes", isAjax := true }
          (some (String.append "insight: " "raw-bytes")) ∧
    (∀ results : Option String,
       (({ filename := "talk.wav", fileText := "raw-bytes",
           isAjax := true } : UploadReq).isAjax = true →
          respond { filename := "talk.wav", fileText := "raw-bytes",
                    isAjax := true } results = .ajaxOk results) ∧
       (({ filename := "talk.wav", fileText := "raw-bytes",
           isAjax := true } : UploadReq).isAjax = false →
          respond { filename := "talk.wav", fileText := "raw-bytes",
                    isAjax := true } results = .redirectResult results)) :=
  upload_dispatches_by_mime
    { filename := "talk.wav", fileText := "raw-bytes", isAjax := true }
    { mime := "audio/wav", transcribe := some "hello there",
      analyse := fun s => some (String.append "insight: " s) }
    { mime := "text/plain", transcribe := none,
      analyse := fun s => some (String.append "insight: " s) }
    "hello there" (by decide) (by decide) rfl (by decide) (by decide)

/-- Helper: setting a key makes it readable. -/
lemma dictGet_dictSet_self (d : Dict) (k v : String) :
    dictGet (dictSet d k v) k = some v := by
  induction d with
  | nil => simp [dictSet, dictGet]
  | cons kv rest ih =>
    obtain ⟨k', v'⟩ := kv
    by_cases h : k' = k
    · simp [dictSet, dictGet, h]
    · simp [dictSet, dictGet, h, ih]

/-- Helper: setting a key leaves every other key unchanged. -/
lemma dictGet_dictSet_ne (d : Dict) (k v k2 : String) (h : k ≠ k2) :
    dictGet (dictSet d k v) k2 = dictGet d k2 := by
  induction d with
  | nil => simp [dictSet, dictGet, h]
  | cons kv rest ih =>
    obtain ⟨k', v'⟩ := kv
    by_cases h2 : k' = k
    · subst h2; simp [dictSet, dictGet, h]
    · simp [dictSet, dictGet, h2, ih]

/-- Helper: a `dict.update` does not touch keys outside the update. -/
lemma dictGet_dictUpdate_not_mem :
    ∀ (a d : Dict) (k : String), k ∉ a.map Prod.fst →
      dictGet (dictUpdate d a) k = dictGet d k := by
  intro a
  induction a with
  | nil => intro d k _; rfl
  | cons kv rest ih =>
    intro d k hk
    obtain ⟨k0, v0⟩ := kv
    simp only [List.map_cons, List.mem_cons, not_or] at hk
    show dictGet (dictUpdate (dictSet d k0 v0) rest) k = dictGet d k
    rw [ih (dictSet d k0 v0) k hk.2,
      dictGet_dictSet_ne d k0 v0 k (fun hh => hk.1 hh.symm)]

/-- Helper: after a `dict.update(addons)` with duplicate-free addons
keys, every addons binding is readable. -/
lemma dictGet_dictUpdate_mem :
    ∀ (a d : Dict), (a.map Prod.fst).Nodup →
      ∀ kv ∈ a, dictGet (dictUpdate d a) kv.1 = some kv.2 := by
  intro a
  induction a with
  | nil => intro d _ kv hkv; cases hkv
  | cons kv0 rest ih =>
    intro d hnd kv hkv
    obtain ⟨k0, v0⟩ := kv0
    simp only [List.map_cons, List.nodup_cons] at hnd
    rw [List.mem_cons] at hkv
    rcases hkv with hkv | hkv
    · subst hkv
      show dictGet (dictUpdate (dictSet d k0 v0) rest) k0 = some v0
      rw [dictGet_dictUpdate_not_mem rest (dictSet d k0 v0) k0 hnd.1,
        dictGet_dictSet_self]
    · exact ih (dictSet d k0 v0) hnd.2 kv hkv

/-- C10: `start` with a plain dict as `options` and a non-`None`
`addons` dict writes through to the caller's dict — the code aliases
it (`self.options = options; combined_options = self.options`) and
merges with `combined_options.update(addons)` — so when `start`
returns, the caller's dict holds `dictUpdate d a`, in which every
binding of `addons` is present (addons keys are unique, as in any
Python dict). -/
theorem start_merges_addons_into_caller_dict (cfg : LiveV1.Config)
    (st : LiveV1.ClientState) (d a : Dict)
    (hso : st.socket = false) (hnd : (a.map Prod.fst).Nodup) :
    start cfg st (.dict d) (some a) .ok
      = { acts := [.emitEv .Open],
          out := .ok (true, startedState cfg, some (dictUpdate d a)) } ∧
    ∀ kv ∈ a, dictGet (dictUpdate d a) kv.1 = some kv.2 := by
  constructor
  · simp [start, start.startConnect, hso, startedState, mergedOptions]
  · exact dictGet_dictUpdate_mem a d hnd

/-- C10 witness: merging two addons into an options dict that already
binds one of the keys. -/
theorem start_merges_addons_into_caller_dict_witness :
    start defaultCfg initState
        (.dict [("model", "nova"), ("tier", "enhanced")])
        (some [("tier", "base"), ("punctuate", "true")]) .ok
      = { acts := [.emitEv .Open],
          out := .ok (true, startedState defaultCfg,
                      some (dictUpdate [("model", "nova"), ("tier", "enhanced")]
                             [("tier", "base"), ("punctuate", "true")])) } ∧
    ∀ kv ∈ [("tier", "base"), ("punctuate", "true")],
      dictGet (dictUpdate [("model", "nova"), ("tier", "enhanced")]
                [("tier", "base"), ("punctuate", "true")]) kv.1 = some kv.2 :=
  start_merges_addons_into_caller_dict defaultCfg initState
    [("model", "nova"), ("tier", "enhanced")]
    [("tier", "base"), ("punctuate", "true")] rfl (by decide)

end Claims
